import Mathlib

/-!
Shallow embedding of the sales-lead-generator pipeline
(`examples/sales_lead_generator/src/lead_qualifier.py`,
`lead_generator.py`, `analytics_tracker.py`).

Conventions of the embedding:
* Python floats are embedded as exact rationals (`ℚ`); every numeric literal
  of the source is carried over verbatim (e.g. `0.85` becomes `85/100`).
* Python dictionaries holding fixed keys become structures; counters are `ℕ`.
* Python exceptions become an explicit error type threaded with `Except`;
  a `try/except/continue` loop becomes a `filterMap` that drops failures.
* `list.sort(key=..., reverse=True)` (a stable sort) is embedded as
  `List.mergeSort`, which is likewise stable.
* Logging, timestamps and file persistence are not modelled; fields of the
  source records that exist only for those purposes (e.g. `scored_at`,
  `start_date`) are omitted.
-/

namespace SalesLeadGen

/-- Char-list version of Python string containment: `listIsPrefix n h` is true
iff `n` is a prefix of `h`. -/
def listIsPrefix : List Char → List Char → Bool
  | [], _ => true
  | _ :: _, [] => false
  | a :: as, b :: bs => a == b && listIsPrefix as bs

/-- Python `needle in hay` on strings (substring containment). -/
def containsSub (hay needle : String) : Bool :=
  go hay.data
where
  go : List Char → Bool
    | [] => listIsPrefix needle.data []
    | c :: cs => listIsPrefix needle.data (c :: cs) || go cs

/-- Python `str.lower()` (ASCII lowering, matching the source's usage). -/
def strLower (s : String) : String := ⟨s.data.map Char.toLower⟩

/-- One entry of the `key_contacts` list (`prospect_researcher.Prospect`). -/
structure Contact where
  title : String
  name : String
  email : String
deriving DecidableEq, Repr

/-- `prospect_researcher.Prospect` / the `prospect_data` dictionary read by
`LeadQualifier._score_lead`.  `social_profiles` is a dict in the source; only
emptiness and size are read, so it is carried as an association list. -/
structure Prospect where
  company_name : String
  website : String
  industry : String
  company_size : Nat
  location : String
  description : String
  revenue_range : String
  key_contacts : List Contact
  technologies : List String
  recent_news : List String
  social_profiles : List (String × String)
deriving DecidableEq, Repr

/-- `lead_generator.LeadGenerationConfig` (the fields the claims touch). -/
structure LeadGenerationConfig where
  target_industry : String
  company_size_minimum : Nat
  company_size_maximum : Nat
  geographic_focus : List String
  budget_minimum : Nat
  daily_lead_target : Nat
  email_sequence_enabled : Bool
  crm_integration : Bool
  analytics_enabled : Bool
deriving DecidableEq, Repr

/-- The source's default configuration values. -/
def defaultConfig : LeadGenerationConfig :=
  { target_industry := "technology"
    company_size_minimum := 50
    company_size_maximum := 1000
    geographic_focus := ["United States"]
    budget_minimum := 50000
    daily_lead_target := 25
    email_sequence_enabled := true
    crm_integration := false
    analytics_enabled := true }

/-- `lead_qualifier.QualificationLevel`. -/
inductive QualificationLevel where
  | hot
  | warm
  | cool
  | cold
deriving DecidableEq, Repr

/-- Rank of a qualification level, `cold` lowest; used to state monotonicity. -/
def QualificationLevel.toNat : QualificationLevel → Nat
  | .cold => 0
  | .cool => 1
  | .warm => 2
  | .hot => 3

/-- `LeadQualifier._determine_qualification_level`: thresholds
`hot = 0.85`, `warm = 0.70`, `cool = 0.55`, evaluated top-down. -/
def determine_qualification_level (s : ℚ) : QualificationLevel :=
  if 85/100 ≤ s then .hot
  else if 70/100 ≤ s then .warm
  else if 55/100 ≤ s then .cool
  else .cold

/-- The six component scores of `LeadQualifier._score_lead`. -/
structure ComponentScores where
  company_fit : ℚ
  budget_alignment : ℚ
  authority_level : ℚ
  need_intensity : ℚ
  timing_urgency : ℚ
  engagement_potential : ℚ
deriving DecidableEq, Repr

/-- `scoring_weights['company_fit']` -/
def weight_company_fit : ℚ := 20/100

/-- `scoring_weights['budget_alignment']` -/
def weight_budget_alignment : ℚ := 25/100

/-- `scoring_weights['authority_level']` -/
def weight_authority_level : ℚ := 15/100

/-- `scoring_weights['need_intensity']` -/
def weight_need_intensity : ℚ := 20/100

/-- `scoring_weights['timing_urgency']` -/
def weight_timing_urgency : ℚ := 10/100

/-- `scoring_weights['engagement_potential']` -/
def weight_engagement_potential : ℚ := 10/100

/-- Sum of the six scoring weights, in the dictionary's insertion order. -/
def scoring_weights_sum : ℚ :=
  weight_company_fit + weight_budget_alignment + weight_authority_level +
    weight_need_intensity + weight_timing_urgency + weight_engagement_potential

/-- `LeadQualifier._score_company_fit`: industry match, size-range fit (with
0.3 partial credit below the minimum), geographic match; averaged over the
three factors. -/
def score_company_fit (cfg : LeadGenerationConfig) (p : Prospect) : ℚ :=
  let s1 : ℚ := if p.industry = cfg.target_industry then 1 else 0
  let s2 : ℚ :=
    if cfg.company_size_minimum ≤ p.company_size ∧
        p.company_size ≤ cfg.company_size_maximum then 1
    else if p.company_size < cfg.company_size_minimum then 3/10
    else 0
  let s3 : ℚ :=
    if cfg.geographic_focus.any
        (fun region => containsSub (strLower p.location) (strLower region)) then 1
    else 0
  (s1 + s2 + s3) / 3

/-- `LeadQualifier._score_budget_alignment`: revenue-bracket ladder on the
`revenue_range` string. -/
def score_budget_alignment (p : Prospect) : ℚ :=
  if containsSub p.revenue_range "$100M+" || containsSub p.revenue_range "$50M-$100M" then 1
  else if containsSub p.revenue_range "$25M-$50M" || containsSub p.revenue_range "$10M-$25M" then 8/10
  else if containsSub p.revenue_range "$5M-$10M" then 6/10
  else if containsSub p.revenue_range "$1M-$5M" then 3/10
  else 5/10

/-- The per-contact title keyword ladder inside
`LeadQualifier._score_authority_level`. -/
def contact_title_score (c : Contact) : ℚ :=
  let t := strLower c.title
  if ["ceo", "chief", "president", "owner"].any (fun k => containsSub t k) then 1
  else if ["vp", "vice president", "director"].any (fun k => containsSub t k) then 8/10
  else if ["manager", "senior"].any (fun k => containsSub t k) then 6/10
  else if ["specialist", "analyst", "associate"].any (fun k => containsSub t k) then 3/10
  else 4/10

/-- `LeadQualifier._score_authority_level`: 0.2 with no contacts, otherwise
the mean of the per-contact title scores. -/
def score_authority_level (p : Prospect) : ℚ :=
  match p.key_contacts with
  | [] => 2/10
  | c :: cs => ((c :: cs).map contact_title_score).sum / ((c :: cs).length : ℚ)

/-- `' '.join(recent_news).lower()` as used by the need/timing scorers. -/
def news_text (p : Prospect) : String :=
  strLower (String.intercalate " " p.recent_news)

/-- `LeadQualifier._score_need_intensity`: base 0.5, +0.3 for a need keyword
in the (nonempty) recent news, +0.2 for size > 200, +0.1 for more than five
technologies, capped at 1. -/
def score_need_intensity (p : Prospect) : ℚ :=
  let s1 : ℚ := 5/10 +
    (if p.recent_news ≠ [] ∧
        (["expansion", "growth", "scaling", "challenge", "problem", "solution"].any
          (fun k => containsSub (news_text p) k)) then 3/10 else 0)
  let s2 : ℚ := s1 + (if 200 < p.company_size then 2/10 else 0)
  let s3 : ℚ := s2 + (if 5 < p.technologies.length then 1/10 else 0)
  min s3 1

/-- `LeadQualifier._score_timing_urgency`: base 0.5, +0.2 for size > 500 or
+0.1 for size < 100, +0.2 for an urgency keyword in the news, capped at 1. -/
def score_timing_urgency (p : Prospect) : ℚ :=
  let s1 : ℚ := 5/10 +
    (if 500 < p.company_size then 2/10
     else if p.company_size < 100 then 1/10
     else 0)
  let s2 : ℚ := s1 +
    (if ["urgent", "immediate", "deadline", "crisis", "problem"].any
        (fun k => containsSub (news_text p) k) then 2/10 else 0)
  min s2 1

/-- `LeadQualifier._score_engagement_potential`: base 0.5, +0.2 for any social
profile (+0.1 more beyond two), +0.1 for an https website, +0.1 for a
description longer than 100 characters, capped at 1. -/
def score_engagement_potential (p : Prospect) : ℚ :=
  let s1 : ℚ := 5/10 +
    (if p.social_profiles ≠ [] then
       2/10 + (if 2 < p.social_profiles.length then 1/10 else 0)
     else 0)
  let s2 : ℚ := s1 +
    (if p.website ≠ "" ∧ containsSub p.website "https://" then 1/10 else 0)
  let s3 : ℚ := s2 + (if 100 < p.description.length then 1/10 else 0)
  min s3 1

/-- The `component_scores` dictionary built by `LeadQualifier._score_lead`. -/
def componentScores (cfg : LeadGenerationConfig) (p : Prospect) : ComponentScores :=
  { company_fit := score_company_fit cfg p
    budget_alignment := score_budget_alignment p
    authority_level := score_authority_level p
    need_intensity := score_need_intensity p
    timing_urgency := score_timing_urgency p
    engagement_potential := score_engagement_potential p }

/-- The weighted overall score of `LeadQualifier._score_lead`, summed in the
dictionary's insertion order. -/
def overallFromComponents (c : ComponentScores) : ℚ :=
  c.company_fit * weight_company_fit +
    c.budget_alignment * weight_budget_alignment +
    c.authority_level * weight_authority_level +
    c.need_intensity * weight_need_intensity +
    c.timing_urgency * weight_timing_urgency +
    c.engagement_potential * weight_engagement_potential

/-- `lead_qualifier.LeadScore` (the numeric fields; the recommendation texts
and the timestamp are not modelled). -/
structure LeadScore where
  overall_score : ℚ
  qualification_level : QualificationLevel
  component_scores : ComponentScores
deriving DecidableEq, Repr

/-- `LeadQualifier._score_lead`. -/
def score_lead (cfg : LeadGenerationConfig) (p : Prospect) : LeadScore :=
  let c := componentScores cfg p
  let overall := overallFromComponents c
  { overall_score := overall
    qualification_level := determine_qualification_level overall
    component_scores := c }

/-- `lead_qualifier.QualifiedLead` (`qualification_date` and the
`recommended_approach` text are not modelled). -/
structure QualifiedLead where
  prospect_data : Prospect
  lead_score : LeadScore
  priority_rank : Nat
  estimated_value : ℚ
  conversion_probability : ℚ
deriving DecidableEq, Repr

/-- `LeadQualifier._estimate_lead_value`:
`company_size * 100 * (0.5 + overall * 0.5)`. -/
def estimate_lead_value (p : Prospect) (ls : LeadScore) : ℚ :=
  ((p.company_size : ℚ) * 100) * (5/10 + ls.overall_score * (5/10))

/-- `LeadQualifier._estimate_conversion_probability`: `overall * 0.8 + 0.1`. -/
def estimate_conversion_probability (ls : LeadScore) : ℚ :=
  ls.overall_score * (8/10) + 1/10

/-- Exceptions of the source, as an explicit error type.
`runtimeError` models the `RuntimeError`s raised by the orchestrator and
`providerError` the exceptions raised by the injected providers.
The `cycleError` constructor follows the spec's words (its §7 `CycleError`,
said to wrap the underlying cause of a failed cycle stage); the source never
constructs such a wrapper, and the constructor exists only to compare the
spec's propagation policy with the source's re-raise. -/
inductive PyError where
  | runtimeError (msg : String)
  | providerError (msg : String)
  | cycleError (cause : PyError)
deriving DecidableEq, Repr

/-- `true` iff an `Except` value is a success. -/
def exceptOk {ε α : Type} : Except ε α → Bool
  | .ok _ => true
  | .error _ => false

/-- The body of the per-prospect loop of `LeadQualifier.qualify_leads`:
score the prospect (any exception is caught and the prospect skipped, hence
the `Except`-valued scorer), keep it only when the level determined from the
overall score is hot or warm, and build the `QualifiedLead` with
`priority_rank = 0` (ranks are assigned after sorting). -/
def qualify_step (f : Prospect → Except PyError LeadScore) (p : Prospect) :
    Option QualifiedLead :=
  match f p with
  | .error _ => none
  | .ok ls =>
    if determine_qualification_level ls.overall_score = .hot ∨
        determine_qualification_level ls.overall_score = .warm then
      some { prospect_data := p
             lead_score := ls
             priority_rank := 0
             estimated_value := estimate_lead_value p ls
             conversion_probability := estimate_conversion_probability ls }
    else none

/-- The comparison of `qualified_leads.sort(key=lambda x:
x.lead_score.overall_score, reverse=True)`: descending by overall score. -/
def leadLE (a b : QualifiedLead) : Bool :=
  decide (b.lead_score.overall_score ≤ a.lead_score.overall_score)

/-- Tail of `qualify_leads` / `re_score_leads`: stable-sort descending by
overall score, then assign `priority_rank = 1..N` in sorted order. -/
def rank_leads (ls : List QualifiedLead) : List QualifiedLead :=
  ((ls.mergeSort leadLE).enum).map
    (fun pr => { pr.2 with priority_rank := pr.1 + 1 })

/-- `LeadQualifier.qualify_leads`, generic in the per-prospect scoring
outcome `f` (an `.error` result models an exception caught by the loop's
`try/except`, which skips that prospect). -/
def qualify_leads_with (f : Prospect → Except PyError LeadScore)
    (ps : List Prospect) : List QualifiedLead :=
  rank_leads (ps.filterMap (qualify_step f))

/-- The scoring outcome on the normal (exception-free) path. -/
def score_lead_exc (cfg : LeadGenerationConfig) (p : Prospect) :
    Except PyError LeadScore :=
  .ok (score_lead cfg p)

/-- `LeadQualifier.qualify_leads` on the normal path. -/
def qualify_leads (cfg : LeadGenerationConfig) (ps : List Prospect) :
    List QualifiedLead :=
  qualify_leads_with (score_lead_exc cfg) ps

/-- The pre-sort qualified list (the loop's `qualified_leads` before sorting
and rank assignment). -/
def preQualified (cfg : LeadGenerationConfig) (ps : List Prospect) :
    List QualifiedLead :=
  ps.filterMap (qualify_step (score_lead_exc cfg))

/-- Overall score of a qualified lead. -/
def leadScoreOf (l : QualifiedLead) : ℚ := l.lead_score.overall_score

/-- Forget the priority rank (used to compare output elements with the
pre-sort elements, whose rank is still 0). -/
def eraseRank (l : QualifiedLead) : QualifiedLead := { l with priority_rank := 0 }

/-- The per-lead adjustment of `LeadQualifier.re_score_leads`:
`score_adjustment = (0.05 - 0.1) * (1 if overall < 0.8 else -1)`, the new
score clamped to `[0, 1]`, and the qualification level recomputed from it. -/
def re_score_one (l : QualifiedLead) : QualifiedLead :=
  let adj : ℚ := (5/100 - 10/100) * (if l.lead_score.overall_score < 8/10 then 1 else -1)
  let ns : ℚ := min 1 (max 0 (l.lead_score.overall_score + adj))
  { l with lead_score :=
      { l.lead_score with
          overall_score := ns
          qualification_level := determine_qualification_level ns } }

/-- `LeadQualifier.re_score_leads`: adjust every lead, re-sort descending by
the new scores, re-assign ranks `1..N`. -/
def re_score_leads (ls : List QualifiedLead) : List QualifiedLead :=
  rank_leads (ls.map re_score_one)

/-- `lead_generator.CampaignMetrics` (counters and the derived conversion
rate; the `start_date` timestamp is not modelled). -/
structure CampaignMetrics where
  campaign_id : String
  prospects_researched : Nat
  leads_qualified : Nat
  emails_sent : Nat
  responses_received : Nat
  meetings_booked : Nat
  deals_closed : Nat
  total_pipeline_value : ℚ
  conversion_rate : ℚ
deriving DecidableEq, Repr

/-- The `CampaignMetrics` built by `start_campaign` (all counters at their
dataclass defaults). -/
def initMetrics (cid : String) : CampaignMetrics :=
  { campaign_id := cid
    prospects_researched := 0
    leads_qualified := 0
    emails_sent := 0
    responses_received := 0
    meetings_booked := 0
    deals_closed := 0
    total_pipeline_value := 0
    conversion_rate := 0 }

/-- `CampaignMetrics.update_conversion_rate`: sets
`conversion_rate = leads_qualified / prospects_researched` only when the
denominator is positive, otherwise leaves the record untouched. -/
def update_conversion_rate (m : CampaignMetrics) : CampaignMetrics :=
  if 0 < m.prospects_researched then
    { m with conversion_rate := (m.leads_qualified : ℚ) / (m.prospects_researched : ℚ) }
  else m

/-- The orchestrator's runtime state (`SalesLeadGenerator.is_running` and
`SalesLeadGenerator.campaign_metrics`). -/
structure GenState where
  is_running : Bool
  campaign_metrics : Option CampaignMetrics
deriving DecidableEq, Repr

/-- The state of a freshly constructed, never-started orchestrator. -/
def initGenState : GenState := { is_running := false, campaign_metrics := none }

/-- `SalesLeadGenerator.start_campaign` (with an explicit campaign id; the
timestamp-derived default id is not modelled).  Raises
`RuntimeError("Campaign already running")` when a campaign is running. -/
def start_campaign (cid : String) (s : GenState) : Except PyError (String × GenState) :=
  if s.is_running then .error (.runtimeError "Campaign already running")
  else .ok (cid, { is_running := true, campaign_metrics := some (initMetrics cid) })

/-- The result dictionary of `EmailAutomationAgent.send_sequences` (the two
keys `run_daily_cycle` reads). -/
structure EmailResults where
  sent : Nat
  responses : Nat
deriving DecidableEq, Repr

/-- The outcomes of the injected provider calls of one cycle: prospect
research, email sending and CRM sync, each of which may raise. -/
structure CycleInputs where
  research : Except PyError (List Prospect)
  email : Except PyError EmailResults
  crm : Except PyError Unit
deriving Repr

/-- The results dictionary returned by a successful `run_daily_cycle`. -/
structure CycleResults where
  campaign_id : String
  prospects_found : Nat
  leads_qualified : Nat
  emails_sent : Nat
  responses_received : Nat
  conversion_rate : ℚ
deriving DecidableEq, Repr

/-- `SalesLeadGenerator.run_daily_cycle`.  Raises
`RuntimeError("No active campaign")` unless a campaign is running with
metrics present.  Stages run in order (research, qualification, email, CRM);
each stage's increments are applied to the metrics immediately, so a failing
stage leaves the increments of the completed stages in place (the source
mutates `self.campaign_metrics` in place and re-raises the exception).  A
disabled or lead-less email/CRM stage is skipped, which is modelled as the
stage succeeding with zero counts. -/
def run_daily_cycle (cfg : LeadGenerationConfig) (inp : CycleInputs) (s : GenState) :
    Except PyError CycleResults × GenState :=
  match s.is_running, s.campaign_metrics with
  | true, some m =>
    match inp.research with
    | .error e => (.error e, s)
    | .ok prospects =>
      let m1 := { m with prospects_researched := m.prospects_researched + prospects.length }
      let qualified := qualify_leads cfg prospects
      let m2 := { m1 with leads_qualified := m1.leads_qualified + qualified.length }
      match (if cfg.email_sequence_enabled && !qualified.isEmpty then inp.email
             else .ok { sent := 0, responses := 0 }) with
      | .error e => (.error e, { s with campaign_metrics := some m2 })
      | .ok r =>
        let m3 := { m2 with
          emails_sent := m2.emails_sent + r.sent
          responses_received := m2.responses_received + r.responses }
        match (if cfg.crm_integration && !qualified.isEmpty then inp.crm else .ok ()) with
        | .error e => (.error e, { s with campaign_metrics := some m3 })
        | .ok _ =>
          let m4 := update_conversion_rate m3
          (.ok { campaign_id := m4.campaign_id
                 prospects_found := prospects.length
                 leads_qualified := qualified.length
                 emails_sent := m4.emails_sent
                 responses_received := m4.responses_received
                 conversion_rate := m4.conversion_rate },
           { s with campaign_metrics := some m4 })
  | _, _ => (.error (.runtimeError "No active campaign"), s)

/-- `SalesLeadGenerator.pause_campaign`: no-op unless running. -/
def pause_campaign (s : GenState) : GenState :=
  if s.is_running then { s with is_running := false } else s

/-- `SalesLeadGenerator.resume_campaign`: no-op when already running. -/
def resume_campaign (s : GenState) : GenState :=
  if s.is_running then s else { s with is_running := true }

/-- The fields of `SalesLeadGenerator._generate_final_report` that do not
depend on wall-clock time: the final counters, the qualification rate (the
report reuses `conversion_rate`) and the email response rate (0 when no
email was sent). -/
structure FinalReport where
  campaign_id : String
  final_prospects_researched : Nat
  final_leads_qualified : Nat
  qualification_rate : ℚ
  email_response_rate : ℚ
deriving DecidableEq, Repr

/-- `SalesLeadGenerator._generate_final_report` (time-independent fields). -/
def generate_final_report (m : CampaignMetrics) : FinalReport :=
  { campaign_id := m.campaign_id
    final_prospects_researched := m.prospects_researched
    final_leads_qualified := m.leads_qualified
    qualification_rate := m.conversion_rate
    email_response_rate :=
      if 0 < m.emails_sent then (m.responses_received : ℚ) / (m.emails_sent : ℚ) else 0 }

/-- `SalesLeadGenerator.stop_campaign`: returns immediately (state unchanged,
no report) unless `is_running`; otherwise clears the running flag, generates
the final report from the current metrics and drops them. -/
def stop_campaign (s : GenState) : GenState × Option FinalReport :=
  if s.is_running then
    match s.campaign_metrics with
    | some m =>
      ({ is_running := false, campaign_metrics := none }, some (generate_final_report m))
    | none => ({ is_running := false, campaign_metrics := none }, none)
  else (s, none)

/-- `analytics_tracker.PerformanceMetrics` (the counters and rates touched by
`update_metrics`/`update_rates`). -/
structure PerformanceMetrics where
  total_prospects_researched : Nat
  prospects_qualified : Nat
  qualification_rate : ℚ
  emails_sent : Nat
  email_responses : Nat
  response_rate : ℚ
  meetings_booked : Nat
  conversion_rate : ℚ
deriving DecidableEq, Repr

/-- A fresh `PerformanceMetrics()` (all dataclass defaults are 0). -/
def initPerformanceMetrics : PerformanceMetrics :=
  { total_prospects_researched := 0
    prospects_qualified := 0
    qualification_rate := 0
    emails_sent := 0
    email_responses := 0
    response_rate := 0
    meetings_booked := 0
    conversion_rate := 0 }

/-- `PerformanceMetrics.update_rates`: each rate is recomputed only when its
denominator is positive, otherwise left untouched. -/
def update_rates (m : PerformanceMetrics) : PerformanceMetrics :=
  let m1 :=
    if 0 < m.total_prospects_researched then
      { m with qualification_rate :=
          (m.prospects_qualified : ℚ) / (m.total_prospects_researched : ℚ) }
    else m
  let m2 :=
    if 0 < m1.emails_sent then
      { m1 with response_rate := (m1.email_responses : ℚ) / (m1.emails_sent : ℚ) }
    else m1
  if 0 < m2.prospects_qualified then
    { m2 with conversion_rate := (m2.meetings_booked : ℚ) / (m2.prospects_qualified : ℚ) }
  else m2

/-- The counter additions of `AnalyticsTracker.update_metrics`. -/
def add_counters (m : PerformanceMetrics) (c : CampaignMetrics) : PerformanceMetrics :=
  { m with
    total_prospects_researched := m.total_prospects_researched + c.prospects_researched
    prospects_qualified := m.prospects_qualified + c.leads_qualified
    emails_sent := m.emails_sent + c.emails_sent
    email_responses := m.email_responses + c.responses_received
    meetings_booked := m.meetings_booked + c.meetings_booked }

/-- One `AnalyticsTracker.update_metrics` call on the cumulative
`current_metrics`: add the campaign's counters, then `update_rates`. -/
def accumulate_metrics (m : PerformanceMetrics) (c : CampaignMetrics) : PerformanceMetrics :=
  update_rates (add_counters m c)

/-- The cumulative `current_metrics` after a sequence of
`update_metrics` calls, starting from a fresh tracker. -/
def trackMetrics (cs : List CampaignMetrics) : PerformanceMetrics :=
  cs.foldl accumulate_metrics initPerformanceMetrics

/-! Helper lemmas about the sort/rank tail shared by `qualify_leads` and
`re_score_leads`. -/

theorem leadLE_trans : ∀ a b c : QualifiedLead, leadLE a b → leadLE b c → leadLE a c := by
  intro a b c hab hbc
  simp only [leadLE, decide_eq_true_eq] at *
  exact le_trans hbc hab

theorem leadLE_total : ∀ a b : QualifiedLead, leadLE a b || leadLE b a := by
  intro a b
  simp only [leadLE, Bool.or_eq_true, decide_eq_true_eq]
  exact le_total _ _

theorem rank_leads_length (ls : List QualifiedLead) :
    (rank_leads ls).length = ls.length := by
  unfold rank_leads
  simp

theorem rank_leads_map_rank (ls : List QualifiedLead) :
    (rank_leads ls).map (fun l => l.priority_rank) = List.range' 1 ls.length := by
  unfold rank_leads
  rw [List.map_map]
  have h1 : ((fun l : QualifiedLead => l.priority_rank) ∘
      fun pr : Nat × QualifiedLead => { pr.2 with priority_rank := pr.1 + 1 }) =
      ((fun i => i + 1) ∘ Prod.fst) := by
    funext pr
    rfl
  rw [h1, ← List.map_map, List.enum_map_fst, List.length_mergeSort,
    List.range'_eq_map_range]
  exact List.map_congr_left fun a _ => Nat.add_comm a 1

theorem rank_leads_sorted (ls : List QualifiedLead) :
    (rank_leads ls).Pairwise (fun a b => leadScoreOf b ≤ leadScoreOf a) := by
  have hs : (ls.mergeSort leadLE).Pairwise (fun a b => leadScoreOf b ≤ leadScoreOf a) := by
    refine (List.sorted_mergeSort leadLE_trans leadLE_total ls).imp ?_
    intro a b h
    simpa [leadLE, leadScoreOf] using h
  have h3 : (((ls.mergeSort leadLE).enum).map Prod.snd).Pairwise
      (fun a b => leadScoreOf b ≤ leadScoreOf a) := by
    rw [List.enum_map_snd]
    exact hs
  have h2 := List.pairwise_map.1 h3
  unfold rank_leads
  rw [List.pairwise_map]
  exact h2

theorem rank_leads_map_eraseRank (ls : List QualifiedLead) :
    (rank_leads ls).map eraseRank = (ls.mergeSort leadLE).map eraseRank := by
  unfold rank_leads
  rw [List.map_map]
  have h1 : (eraseRank ∘
      fun pr : Nat × QualifiedLead => { pr.2 with priority_rank := pr.1 + 1 }) =
      (eraseRank ∘ Prod.snd) := by
    funext pr
    rfl
  rw [h1, ← List.map_map, List.enum_map_snd]

theorem rank_leads_filter_stable (ls : List QualifiedLead)
    (h0 : ∀ l ∈ ls, l.priority_rank = 0) (q : ℚ) :
    ((rank_leads ls).map eraseRank).filter (fun l => decide (leadScoreOf l = q)) =
      ls.filter (fun l => decide (leadScoreOf l = q)) := by
  have hid : ∀ l ∈ ls.mergeSort leadLE, eraseRank l = l := by
    intro l hl
    have hr := h0 l (List.mem_mergeSort.1 hl)
    unfold eraseRank
    cases l
    simp_all
  have hm : (rank_leads ls).map eraseRank = ls.mergeSort leadLE := by
    rw [rank_leads_map_eraseRank]
    calc (ls.mergeSort leadLE).map eraseRank
        = (ls.mergeSort leadLE).map id := List.map_congr_left fun a ha => hid a ha
      _ = ls.mergeSort leadLE := List.map_id _
  rw [hm]
  have hc_pw : (ls.filter (fun l => decide (leadScoreOf l = q))).Pairwise
      (fun a b => leadLE a b = true) := by
    apply List.pairwise_of_forall_mem_list
    intro a ha b hb
    have ha' := (List.mem_filter.1 ha).2
    have hb' := (List.mem_filter.1 hb).2
    simp only [decide_eq_true_eq] at ha' hb'
    simp only [leadLE, decide_eq_true_eq, leadScoreOf] at *
    rw [ha', hb']
  have hsub : List.Sublist (ls.filter (fun l => decide (leadScoreOf l = q)))
      (ls.mergeSort leadLE) :=
    List.sublist_mergeSort leadLE_trans leadLE_total hc_pw (List.filter_sublist ls)
  have hself : (ls.filter (fun l => decide (leadScoreOf l = q))).filter
      (fun l => decide (leadScoreOf l = q)) =
      ls.filter (fun l => decide (leadScoreOf l = q)) := by
    rw [List.filter_eq_self]
    intro a ha
    exact (List.mem_filter.1 ha).2
  have hsub2 : List.Sublist (ls.filter (fun l => decide (leadScoreOf l = q)))
      ((ls.mergeSort leadLE).filter (fun l => decide (leadScoreOf l = q))) := by
    have := hsub.filter (fun l => decide (leadScoreOf l = q))
    rwa [hself] at this
  have hperm : List.Perm
      ((ls.mergeSort leadLE).filter (fun l => decide (leadScoreOf l = q)))
      (ls.filter (fun l => decide (leadScoreOf l = q))) :=
    (List.mergeSort_perm ls leadLE).filter _
  exact (hsub2.eq_of_length hperm.length_eq.symm).symm

theorem qualify_step_rank0 {f : Prospect → Except PyError LeadScore} {p : Prospect}
    {l : QualifiedLead} (h : qualify_step f p = some l) : l.priority_rank = 0 := by
  unfold qualify_step at h
  cases hf : f p with
  | error e =>
    rw [hf] at h
    simp at h
  | ok ls =>
    rw [hf] at h
    dsimp only at h
    split at h
    · cases h
      rfl
    · cases h

theorem preQualified_rank0 (cfg : LeadGenerationConfig) (ps : List Prospect) :
    ∀ l ∈ preQualified cfg ps, l.priority_rank = 0 := by
  intro l hl
  obtain ⟨p, _, hstep⟩ := List.mem_filterMap.1 hl
  exact qualify_step_rank0 hstep

/-- C1: for every input list, the output of `qualify_leads` is sorted by
`overall_score` descending; the `priority_rank` fields are exactly `1..N` in
sorted order (no gaps, no repeats); and for every score value the leads
carrying that score appear in the output in their original input order
(the sort is stable), witnessed by comparing, rank field erased, with the
pre-sort qualified list `preQualified`. -/
theorem C1_qualify_leads_sorted_stable_ranked (cfg : LeadGenerationConfig)
    (ps : List Prospect) :
    ((qualify_leads cfg ps).Pairwise (fun a b => leadScoreOf b ≤ leadScoreOf a)) ∧
    ((qualify_leads cfg ps).map (fun l => l.priority_rank) =
      List.range' 1 (qualify_leads cfg ps).length) ∧
    (∀ q : ℚ,
      ((qualify_leads cfg ps).map eraseRank).filter (fun l => decide (leadScoreOf l = q)) =
        (preQualified cfg ps).filter (fun l => decide (leadScoreOf l = q))) := by
  have hq : qualify_leads cfg ps = rank_leads (preQualified cfg ps) := rfl
  refine ⟨?_, ?_, ?_⟩
  · rw [hq]
    exact rank_leads_sorted _
  · rw [hq, rank_leads_length]
    exact rank_leads_map_rank _
  · intro q
    rw [hq]
    exact rank_leads_filter_stable _ (preQualified_rank0 cfg ps) q

/-- C2: the qualification level is monotonically non-decreasing in the
overall score; the fixed thresholds are evaluated top-down with first match
winning (`≥ 0.85` hot, `≥ 0.70` warm, `≥ 0.55` cool, otherwise cold); and
the scores 0.30, 0.60, 0.75, 0.90 map to cold, cool, warm, hot. -/
theorem C2_qualification_level_thresholds :
    (∀ s t : ℚ, s ≤ t →
      (determine_qualification_level s).toNat ≤ (determine_qualification_level t).toNat) ∧
    determine_qualification_level (30/100) = .cold ∧
    determine_qualification_level (60/100) = .cool ∧
    determine_qualification_level (75/100) = .warm ∧
    determine_qualification_level (90/100) = .hot ∧
    (∀ s : ℚ,
      (85/100 ≤ s → determine_qualification_level s = .hot) ∧
      (70/100 ≤ s → s < 85/100 → determine_qualification_level s = .warm) ∧
      (55/100 ≤ s → s < 70/100 → determine_qualification_level s = .cool) ∧
      (s < 55/100 → determine_qualification_level s = .cold)) := by
  refine ⟨?_, by norm_num [determine_qualification_level],
    by norm_num [determine_qualification_level],
    by norm_num [determine_qualification_level],
    by norm_num [determine_qualification_level], ?_⟩
  · intro s t hst
    unfold determine_qualification_level
    split_ifs <;> simp_all [QualificationLevel.toNat] <;> linarith
  · intro s
    refine ⟨fun h1 => ?_, fun h1 h2 => ?_, fun h1 h2 => ?_, fun h1 => ?_⟩
    · unfold determine_qualification_level
      rw [if_pos h1]
    · unfold determine_qualification_level
      rw [if_neg (by linarith), if_pos h1]
    · unfold determine_qualification_level
      rw [if_neg (by linarith), if_neg (by linarith), if_pos h1]
    · unfold determine_qualification_level
      rw [if_neg (by linarith), if_neg (by linarith), if_neg (by linarith)]

/-- Witness for C2 at concrete scores. -/
theorem C2_witness :
    (determine_qualification_level (30/100)).toNat ≤
      (determine_qualification_level (90/100)).toNat ∧
    determine_qualification_level (87/100) = .hot ∧
    determine_qualification_level (72/100) = .warm :=
  ⟨C2_qualification_level_thresholds.1 (30/100) (90/100) (by norm_num),
   (C2_qualification_level_thresholds.2.2.2.2.2 (87/100)).1 (by norm_num),
   (C2_qualification_level_thresholds.2.2.2.2.2 (72/100)).2.1 (by norm_num) (by norm_num)⟩

/-- C3: the six fixed scoring weights sum to exactly 1; `score_lead` computes
its overall score as the weighted sum of the six component scores; and for
any component scores each in [0, 1] the weighted overall score lies in
[0, 1]. -/
theorem C3_overall_score_bounds :
    scoring_weights_sum = 1 ∧
    (∀ (cfg : LeadGenerationConfig) (p : Prospect),
      (score_lead cfg p).overall_score = overallFromComponents (componentScores cfg p)) ∧
    (∀ c : ComponentScores,
      0 ≤ c.company_fit → c.company_fit ≤ 1 →
      0 ≤ c.budget_alignment → c.budget_alignment ≤ 1 →
      0 ≤ c.authority_level → c.authority_level ≤ 1 →
      0 ≤ c.need_intensity → c.need_intensity ≤ 1 →
      0 ≤ c.timing_urgency → c.timing_urgency ≤ 1 →
      0 ≤ c.engagement_potential → c.engagement_potential ≤ 1 →
      0 ≤ overallFromComponents c ∧ overallFromComponents c ≤ 1) := by
  refine ⟨by norm_num [scoring_weights_sum, weight_company_fit, weight_budget_alignment,
    weight_authority_level, weight_need_intensity, weight_timing_urgency,
    weight_engagement_potential], fun cfg p => rfl, ?_⟩
  intro c h1 h2 h3 h4 h5 h6 h7 h8 h9 h10 h11 h12
  unfold overallFromComponents weight_company_fit weight_budget_alignment
    weight_authority_level weight_need_intensity weight_timing_urgency
    weight_engagement_potential
  constructor <;> linarith

theorem qualify_step_none_of_error {f : Prospect → Except PyError LeadScore}
    {p : Prospect} (h : exceptOk (f p) = false) : qualify_step f p = none := by
  unfold qualify_step
  cases hf : f p with
  | error e => rfl
  | ok ls =>
    rw [hf] at h
    simp [exceptOk] at h

/-- C10: a prospect whose scoring raises is silently skipped — the output of
the qualification loop coincides with the output on the sublist of prospects
whose scoring succeeds (so the exception never propagates and the survivors
are still scored, filtered, sorted) — and the ranks of the output are still
the contiguous `1..N`. -/
theorem C10_scoring_failure_skipped (f : Prospect → Except PyError LeadScore)
    (ps : List Prospect) :
    qualify_leads_with f ps = qualify_leads_with f (ps.filter (fun p => exceptOk (f p))) ∧
    (qualify_leads_with f ps).map (fun l => l.priority_rank) =
      List.range' 1 (qualify_leads_with f ps).length := by
  constructor
  · unfold qualify_leads_with
    congr 1
    induction ps with
    | nil => rfl
    | cons p t ih =>
      cases hp : exceptOk (f p) with
      | true =>
        cases hstep : qualify_step f p with
        | none => simp [List.filterMap_cons, List.filter_cons, hp, hstep, ih]
        | some b => simp [List.filterMap_cons, List.filter_cons, hp, hstep, ih]
      | false =>
        simp [List.filterMap_cons, List.filter_cons, hp,
          qualify_step_none_of_error hp, ih]
  · have h := rank_leads_map_rank (ps.filterMap (qualify_step f))
    have hl : (qualify_leads_with f ps).length = (ps.filterMap (qualify_step f)).length :=
      rank_leads_length _
    rw [hl]
    exact h

theorem rank_leads_mem {ls : List QualifiedLead} {l : QualifiedLead}
    (h : l ∈ rank_leads ls) :
    ∃ x ∈ ls, l.lead_score = x.lead_score ∧ l.prospect_data = x.prospect_data := by
  unfold rank_leads at h
  obtain ⟨pr, hpr, hg⟩ := List.mem_map.1 h
  have hx : pr.2 ∈ ls.mergeSort leadLE := List.snd_mem_of_mem_enum hpr
  exact ⟨pr.2, List.mem_mergeSort.1 hx, by rw [← hg], by rw [← hg]⟩

theorem preQualified_level {cfg : LeadGenerationConfig} {ps : List Prospect} :
    ∀ l ∈ preQualified cfg ps,
      l.lead_score.qualification_level = .hot ∨ l.lead_score.qualification_level = .warm := by
  intro l hl
  obtain ⟨p, _, hstep⟩ := List.mem_filterMap.1 hl
  unfold qualify_step score_lead_exc at hstep
  dsimp only at hstep
  split at hstep
  case isTrue hq =>
    cases hstep
    exact hq
  case isFalse => cases hstep

/-- C4: every lead in the output of `qualify_leads` has qualification level
hot or warm; a candidate determined cool or cold is dropped by the loop
itself (`qualify_step` returns `none`) — a silent exclusion, not an error. -/
theorem C4_output_only_hot_or_warm (cfg : LeadGenerationConfig) (ps : List Prospect) :
    (∀ l ∈ qualify_leads cfg ps,
      l.lead_score.qualification_level = .hot ∨
        l.lead_score.qualification_level = .warm) ∧
    (∀ (f : Prospect → Except PyError LeadScore) (p : Prospect) (ls : LeadScore),
      f p = .ok ls →
      (determine_qualification_level ls.overall_score = .cool ∨
        determine_qualification_level ls.overall_score = .cold) →
      qualify_step f p = none) := by
  constructor
  · intro l hl
    obtain ⟨x, hx, hsc, _⟩ := rank_leads_mem hl
    rw [hsc]
    exact preQualified_level x hx
  · intro f p ls hf hlvl
    unfold qualify_step
    rw [hf]
    dsimp only
    rw [if_neg]
    rcases hlvl with h | h <;> rw [h] <;> simp

/-! A concrete prospect used to witness the qualification theorems.  Its
component scores against `wcfg` are 1, 1, 1, 0.8, 0.5, 0.8, so its overall
score is 0.89 and it qualifies as hot. -/

/-- Concrete campaign configuration for the witnesses. -/
def wcfg : LeadGenerationConfig :=
  { target_industry := "t"
    company_size_minimum := 50
    company_size_maximum := 1000
    geographic_focus := ["u"]
    budget_minimum := 50000
    daily_lead_target := 25
    email_sequence_enabled := true
    crm_integration := false
    analytics_enabled := true }

/-- Concrete prospect for the witnesses. -/
def wp : Prospect :=
  { company_name := "c"
    website := "https://c"
    industry := "t"
    company_size := 100
    location := "u"
    description := ""
    revenue_range := "$100M+"
    key_contacts := [{ title := "ceo", name := "n", email := "e" }]
    technologies := []
    recent_news := ["expansion"]
    social_profiles := [("linkedin", "x")] }

theorem wp_score : (score_lead wcfg wp).overall_score = 89/100 := by
  simp +decide [score_lead, componentScores, overallFromComponents,
    score_company_fit, score_budget_alignment, score_authority_level,
    contact_title_score, score_need_intensity, score_timing_urgency,
    score_engagement_potential, news_text, wcfg, wp,
    weight_company_fit, weight_budget_alignment, weight_authority_level,
    weight_need_intensity, weight_timing_urgency, weight_engagement_potential]
  norm_num [min_def]

theorem wp_level :
    determine_qualification_level (score_lead wcfg wp).overall_score = .hot := by
  rw [wp_score]
  norm_num [determine_qualification_level]

/-- The pre-rank qualified lead built from `wp`. -/
def wLead0 : QualifiedLead :=
  { prospect_data := wp
    lead_score := score_lead wcfg wp
    priority_rank := 0
    estimated_value := estimate_lead_value wp (score_lead wcfg wp)
    conversion_probability := estimate_conversion_probability (score_lead wcfg wp) }

/-- The qualified lead built from `wp`, rank assigned. -/
def wLead : QualifiedLead := { wLead0 with priority_rank := 1 }

theorem wp_qualify_step :
    qualify_step (score_lead_exc wcfg) wp = some wLead0 := by
  unfold qualify_step score_lead_exc
  dsimp only
  rw [if_pos (Or.inl wp_level)]
  rfl

theorem wp_qualify : qualify_leads wcfg [wp] = [wLead] := by
  show rank_leads (List.filterMap (qualify_step (score_lead_exc wcfg)) [wp]) = [wLead]
  rw [List.filterMap_cons, wp_qualify_step]
  dsimp only
  rw [List.filterMap_nil]
  unfold rank_leads
  simp
  rfl

/-- Witness for C4: the concrete hot prospect `wp` appears in the output and
its level is hot or warm; a cold-scored prospect yields `none`. -/
theorem C4_witness :
    (wLead.lead_score.qualification_level = .hot ∨
      wLead.lead_score.qualification_level = .warm) ∧
    qualify_step (fun _ => .ok { overall_score := 0
                                 qualification_level := .cold
                                 component_scores := ⟨0, 0, 0, 0, 0, 0⟩ }) wp = none :=
  ⟨(C4_output_only_hot_or_warm wcfg [wp]).1 wLead
    (by rw [wp_qualify]; exact List.mem_singleton.2 rfl),
   (C4_output_only_hot_or_warm wcfg [wp]).2 _ wp _ rfl
    (by right; norm_num [determine_qualification_level])⟩

/-- Witness for C3 with all six component scores equal to 0.9. -/
theorem C3_witness :
    0 ≤ overallFromComponents ⟨9/10, 9/10, 9/10, 9/10, 9/10, 9/10⟩ ∧
    overallFromComponents ⟨9/10, 9/10, 9/10, 9/10, 9/10, 9/10⟩ ≤ 1 :=
  C3_overall_score_bounds.2.2 ⟨9/10, 9/10, 9/10, 9/10, 9/10, 9/10⟩
    (by norm_num) (by norm_num) (by norm_num) (by norm_num) (by norm_num)
    (by norm_num) (by norm_num) (by norm_num) (by norm_num) (by norm_num)
    (by norm_num) (by norm_num)

/-- Stage inputs on which every provider call succeeds trivially. -/
def winp : CycleInputs :=
  { research := .ok []
    email := .ok { sent := 0, responses := 0 }
    crm := .ok () }

/-- C5: `run_daily_cycle` is legal only while running — on the freshly
constructed orchestrator it raises the no-active-campaign `RuntimeError`
(the source's concrete form of the spec's `InvalidStateError`) and leaves
the state unchanged; `start_campaign` moves the fresh state to running with
fresh metrics; a cycle whose provider calls all succeed returns `ok` and
leaves the campaign running; and after `stop_campaign` (from any state) a
further cycle again raises the same error. -/
theorem C5_run_cycle_requires_running (cfg : LeadGenerationConfig)
    (inp : CycleInputs) (cid : String) :
    ((run_daily_cycle cfg inp initGenState).1 =
        .error (.runtimeError "No active campaign") ∧
      (run_daily_cycle cfg inp initGenState).2 = initGenState) ∧
    (start_campaign cid initGenState =
      .ok (cid, { is_running := true, campaign_metrics := some (initMetrics cid) })) ∧
    (∀ (ps : List Prospect) (r : EmailResults),
      inp.research = .ok ps → inp.email = .ok r → inp.crm = .ok () →
      exceptOk (run_daily_cycle cfg inp
        { is_running := true, campaign_metrics := some (initMetrics cid) }).1 = true ∧
      (run_daily_cycle cfg inp
        { is_running := true, campaign_metrics := some (initMetrics cid) }).2.is_running
        = true) ∧
    (∀ s : GenState,
      (run_daily_cycle cfg inp (stop_campaign s).1).1 =
        .error (.runtimeError "No active campaign")) := by
  refine ⟨⟨rfl, rfl⟩, rfl, ?_, ?_⟩
  · intro ps r hr he hc
    unfold run_daily_cycle
    dsimp only
    rw [hr]
    by_cases hA : (cfg.email_sequence_enabled && !(qualify_leads cfg ps).isEmpty) = true
    · by_cases hB : (cfg.crm_integration && !(qualify_leads cfg ps).isEmpty) = true
      · simp [hA, hB, he, hc, exceptOk]
      · simp [hA, hB, he, exceptOk]
    · by_cases hB : (cfg.crm_integration && !(qualify_leads cfg ps).isEmpty) = true
      · simp [hA, hB, hc, exceptOk]
      · simp [hA, hB, exceptOk]
  · intro s
    unfold stop_campaign
    by_cases hs : s.is_running = true
    · rw [if_pos hs]
      cases hm : s.campaign_metrics <;> rfl
    · rw [if_neg hs]
      have hs' : s.is_running = false := by simpa using hs
      unfold run_daily_cycle
      rw [hs']

/-- Witness for C5: a cycle with trivially succeeding providers on a
just-started campaign. -/
theorem C5_witness :
    exceptOk (run_daily_cycle defaultConfig winp
      { is_running := true, campaign_metrics := some (initMetrics "c1") }).1 = true ∧
    (run_daily_cycle defaultConfig winp
      { is_running := true, campaign_metrics := some (initMetrics "c1") }).2.is_running
      = true :=
  (C5_run_cycle_requires_running defaultConfig winp "c1").2.2.1
    [] { sent := 0, responses := 0 } rfl rfl rfl

/-- Stage inputs whose research succeeds with the hot prospect `wp` and whose
email stage then fails. -/
def winp6 : CycleInputs :=
  { research := .ok [wp]
    email := .error (.providerError "smtp")
    crm := .ok () }

/-- Counterexample to C6 as stated: at a concrete running state, with the
research stage succeeding and the email stage raising a provider error, the
error surfaced by `run_daily_cycle` is the provider's exception itself
(the source re-raises it), not a `CycleError` wrapping it — even though the
earlier stages' metric increments were folded in (both counters are 1). -/
theorem C6_counterexample :
    (run_daily_cycle wcfg winp6
      { is_running := true, campaign_metrics := some (initMetrics "c1") }).1 =
      .error (.providerError "smtp") ∧
    (run_daily_cycle wcfg winp6
      { is_running := true, campaign_metrics := some (initMetrics "c1") }).1 ≠
      .error (.cycleError (.providerError "smtp")) ∧
    ((run_daily_cycle wcfg winp6
      { is_running := true, campaign_metrics := some (initMetrics "c1") }).2.campaign_metrics.map
        (fun m => (m.prospects_researched, m.leads_qualified))) = some (1, 1) := by
  have hq : (wcfg.email_sequence_enabled && !(qualify_leads wcfg [wp]).isEmpty) = true := by
    rw [wp_qualify]
    rfl
  have hrun : run_daily_cycle wcfg winp6
      { is_running := true, campaign_metrics := some (initMetrics "c1") } =
      (.error (.providerError "smtp"),
        { is_running := true, campaign_metrics := some ({ initMetrics "c1" with
              prospects_researched := 1
              leads_qualified := 1 }) }) := by
    have hE : wcfg.email_sequence_enabled = true := rfl
    simp [run_daily_cycle, winp6, hq, initMetrics, wp_qualify, hE]
  rw [hrun]
  refine ⟨rfl, by simp, rfl⟩

/-- C6 (amended): a failing stage aborts only the remaining stages of the
cycle — a research failure leaves the metrics untouched, and an email-stage
failure retains the research and qualification increments already folded in
— the campaign stays running, and the failure is re-raised to the caller as
the underlying exception itself (the source has no `CycleError` wrapper). -/
theorem C6_partial_progress_kept (cfg : LeadGenerationConfig) (inp : CycleInputs)
    (s : GenState) (m : CampaignMetrics) (ps : List Prospect) (e : PyError)
    (hrun : s.is_running = true) (hm : s.campaign_metrics = some m) :
    (inp.research = .error e → run_daily_cycle cfg inp s = (.error e, s)) ∧
    (inp.research = .ok ps →
      (cfg.email_sequence_enabled && !(qualify_leads cfg ps).isEmpty) = true →
      inp.email = .error e →
      run_daily_cycle cfg inp s =
        (.error e, { s with campaign_metrics := some ({ m with
            prospects_researched := m.prospects_researched + ps.length
            leads_qualified := m.leads_qualified + (qualify_leads cfg ps).length }) })) := by
  constructor
  · intro hr
    unfold run_daily_cycle
    rw [hrun, hm, hr]
  · intro hr hA he
    unfold run_daily_cycle
    rw [hrun, hm, hr]
    dsimp only
    rw [hA, he]
    rfl

/-- Witness for C6: the amended behaviour at the concrete failing cycle. -/
theorem C6_witness :
    run_daily_cycle wcfg winp6
      { is_running := true, campaign_metrics := some (initMetrics "c1") } =
      (.error (.providerError "smtp"),
        { is_running := true, campaign_metrics := some ({ initMetrics "c1" with
            prospects_researched := (initMetrics "c1").prospects_researched + [wp].length
            leads_qualified :=
              (initMetrics "c1").leads_qualified + (qualify_leads wcfg [wp]).length }) }) :=
  (C6_partial_progress_kept wcfg winp6
    { is_running := true, campaign_metrics := some (initMetrics "c1") }
    (initMetrics "c1") [wp] (.providerError "smtp") rfl rfl).2
    rfl (by rw [wp_qualify]; rfl) rfl

theorem update_rates_counters (m : PerformanceMetrics) :
    (update_rates m).total_prospects_researched = m.total_prospects_researched ∧
    (update_rates m).emails_sent = m.emails_sent ∧
    (update_rates m).prospects_qualified = m.prospects_qualified := by
  unfold update_rates
  dsimp only
  split_ifs <;> exact ⟨rfl, rfl, rfl⟩

theorem update_rates_qual_zero {m : PerformanceMetrics}
    (h : m.total_prospects_researched = 0) :
    (update_rates m).qualification_rate = m.qualification_rate := by
  unfold update_rates
  dsimp only
  split_ifs <;> first | rfl | (exfalso; simp_all)

theorem update_rates_resp_zero {m : PerformanceMetrics} (h : m.emails_sent = 0) :
    (update_rates m).response_rate = m.response_rate := by
  unfold update_rates
  dsimp only
  split_ifs <;> first | rfl | (exfalso; simp_all)

theorem update_rates_conv_zero {m : PerformanceMetrics} (h : m.prospects_qualified = 0) :
    (update_rates m).conversion_rate = m.conversion_rate := by
  unfold update_rates
  dsimp only
  split_ifs <;> first | rfl | (exfalso; simp_all)

theorem track_fold_zero_rates (cs : List CampaignMetrics) (m : PerformanceMetrics)
    (h1 : m.total_prospects_researched = 0 → m.qualification_rate = 0)
    (h2 : m.emails_sent = 0 → m.response_rate = 0)
    (h3 : m.prospects_qualified = 0 → m.conversion_rate = 0) :
    ((cs.foldl accumulate_metrics m).total_prospects_researched = 0 →
      (cs.foldl accumulate_metrics m).qualification_rate = 0) ∧
    ((cs.foldl accumulate_metrics m).emails_sent = 0 →
      (cs.foldl accumulate_metrics m).response_rate = 0) ∧
    ((cs.foldl accumulate_metrics m).prospects_qualified = 0 →
      (cs.foldl accumulate_metrics m).conversion_rate = 0) := by
  induction cs generalizing m with
  | nil => exact ⟨h1, h2, h3⟩
  | cons c t ih =>
    refine ih _ ?_ ?_ ?_
    · intro h0
      have htot : (accumulate_metrics m c).total_prospects_researched =
          (add_counters m c).total_prospects_researched := (update_rates_counters _).1
      rw [htot] at h0
      have h0' : m.total_prospects_researched + c.prospects_researched = 0 := h0
      show (update_rates (add_counters m c)).qualification_rate = 0
      rw [update_rates_qual_zero h0]
      show m.qualification_rate = 0
      exact h1 (by omega)
    · intro h0
      have hem : (accumulate_metrics m c).emails_sent =
          (add_counters m c).emails_sent := (update_rates_counters _).2.1
      rw [hem] at h0
      have h0' : m.emails_sent + c.emails_sent = 0 := h0
      show (update_rates (add_counters m c)).response_rate = 0
      rw [update_rates_resp_zero h0]
      show m.response_rate = 0
      exact h2 (by omega)
    · intro h0
      have hqu : (accumulate_metrics m c).prospects_qualified =
          (add_counters m c).prospects_qualified := (update_rates_counters _).2.2
      rw [hqu] at h0
      have h0' : m.prospects_qualified + c.leads_qualified = 0 := h0
      show (update_rates (add_counters m c)).conversion_rate = 0
      rw [update_rates_conv_zero h0]
      show m.conversion_rate = 0
      exact h3 (by omega)

/-- C7: no derived rate ever divides by zero — `update_conversion_rate`
computes `leads_qualified / prospects_researched` only when the denominator
is positive and is the identity otherwise (the rate starts at 0); and on any
sequence of analytics updates from a fresh tracker each of
`qualification_rate`, `response_rate` and `conversion_rate` is 0 whenever
its denominator is 0. -/
theorem C7_rates_zero_on_zero_denominator :
    (∀ cm : CampaignMetrics, 0 < cm.prospects_researched →
      (update_conversion_rate cm).conversion_rate =
        (cm.leads_qualified : ℚ) / (cm.prospects_researched : ℚ)) ∧
    (∀ cm : CampaignMetrics, cm.prospects_researched = 0 →
      update_conversion_rate cm = cm) ∧
    (∀ cid : String, (initMetrics cid).conversion_rate = 0) ∧
    (∀ cs : List CampaignMetrics,
      ((trackMetrics cs).total_prospects_researched = 0 →
        (trackMetrics cs).qualification_rate = 0) ∧
      ((trackMetrics cs).emails_sent = 0 → (trackMetrics cs).response_rate = 0) ∧
      ((trackMetrics cs).prospects_qualified = 0 →
        (trackMetrics cs).conversion_rate = 0)) := by
  refine ⟨?_, ?_, fun cid => rfl, ?_⟩
  · intro cm h
    unfold update_conversion_rate
    rw [if_pos h]
  · intro cm h
    unfold update_conversion_rate
    rw [if_neg (by omega)]
  · intro cs
    exact track_fold_zero_rates cs initPerformanceMetrics
      (fun _ => rfl) (fun _ => rfl) (fun _ => rfl)

/-- Witness for C7 at concrete metric records. -/
theorem C7_witness :
    (update_conversion_rate
      { initMetrics "c" with prospects_researched := 4, leads_qualified := 2 }).conversion_rate
      = (2 : ℚ) / 4 ∧
    update_conversion_rate (initMetrics "c") = initMetrics "c" ∧
    ((trackMetrics [initMetrics "c"]).total_prospects_researched = 0 →
      (trackMetrics [initMetrics "c"]).qualification_rate = 0) :=
  ⟨by
    have h := C7_rates_zero_on_zero_denominator.1
      { initMetrics "c" with prospects_researched := 4, leads_qualified := 2 } (by decide)
    simpa using h,
   C7_rates_zero_on_zero_denominator.2.1 (initMetrics "c") rfl,
   (C7_rates_zero_on_zero_denominator.2.2.2 [initMetrics "c"]).1⟩

/-- The per-lead score adjustment formula of `re_score_leads`:
−0.05 below 0.8, +0.05 from 0.8 up, clamped to [0, 1]. -/
def re_score_formula (s : ℚ) : ℚ :=
  min 1 (max 0 (s + (if s < 8/10 then -(5/100) else 5/100)))

/-- C8 (amended): `re_score_leads` does not re-run the scoring engine — each
lead's overall score is shifted by the fixed deterministic delta (−0.05 when
the old score is below 0.8, +0.05 otherwise) clamped to [0, 1], with the
qualification level recomputed from the adjusted score and the prospect data
untouched; the adjusted leads are then re-sorted descending and re-ranked
`1..N`.  Scores are therefore not preserved even when the underlying
candidate data is unchanged. -/
theorem C8_re_score_shifts_scores (ls : List QualifiedLead) :
    (∀ l : QualifiedLead,
      (re_score_one l).prospect_data = l.prospect_data ∧
      (re_score_one l).lead_score.overall_score =
        re_score_formula l.lead_score.overall_score ∧
      (re_score_one l).lead_score.qualification_level =
        determine_qualification_level ((re_score_one l).lead_score.overall_score)) ∧
    ((re_score_leads ls).Pairwise (fun a b => leadScoreOf b ≤ leadScoreOf a)) ∧
    ((re_score_leads ls).map (fun l => l.priority_rank) =
      List.range' 1 (re_score_leads ls).length) := by
  refine ⟨?_, rank_leads_sorted _, ?_⟩
  · intro l
    refine ⟨rfl, ?_, rfl⟩
    unfold re_score_one re_score_formula
    dsimp only
    split_ifs <;> norm_num
  · have h := rank_leads_map_rank (ls.map re_score_one)
    have hl : (re_score_leads ls).length = (ls.map re_score_one).length :=
      rank_leads_length _
    rw [hl]
    exact h

/-- A concrete warm lead (overall score 0.75) used to refute C8 as stated. -/
def cLead : QualifiedLead :=
  { prospect_data := wp
    lead_score :=
      { overall_score := 3/4
        qualification_level := .warm
        component_scores := ⟨3/4, 3/4, 3/4, 3/4, 3/4, 3/4⟩ }
    priority_rank := 1
    estimated_value := 0
    conversion_probability := 0 }

/-- Counterexample to C8 as stated: re-scoring the single lead `cLead`
(score 0.75, underlying candidate data unchanged) yields score 0.70, not
0.75 — the source's time-decay adjustment changes scores on unchanged
input. -/
theorem C8_counterexample :
    (re_score_leads [cLead]).map (fun l => l.lead_score.overall_score) = [7/10] ∧
    ((7 : ℚ)/10 = 3/4 → False) := by
  constructor
  · unfold re_score_leads rank_leads
    simp only [List.map_cons, List.map_nil, List.mergeSort_singleton,
      List.enum_singleton]
    show [(re_score_one cLead).lead_score.overall_score] = [7/10]
    unfold re_score_one cLead
    norm_num
  · intro h
    norm_num at h

/-- C9 (amended): `stop_campaign` is a silent no-op whenever the campaign is
not running — including the paused state — and only from the running state
does it transition to the stopped state (metrics cleared) and generate the
final report from the current metrics. -/
theorem C9_stop_behaviour (s : GenState) :
    (s.is_running = false → stop_campaign s = (s, none)) ∧
    (s.is_running = true →
      (stop_campaign s).1 = { is_running := false, campaign_metrics := none } ∧
      (∀ m : CampaignMetrics, s.campaign_metrics = some m →
        (stop_campaign s).2 = some (generate_final_report m))) := by
  constructor
  · intro h
    unfold stop_campaign
    rw [h]
    rfl
  · intro h
    unfold stop_campaign
    rw [h]
    constructor
    · cases hm : s.campaign_metrics <;> rfl
    · intro m hm
      rw [hm]
      rfl

/-- Counterexample to C9 as stated: a started-then-paused campaign.  Stopping
it is a complete no-op — the metrics are not cleared (no transition to the
stopped state) and no final report is generated — contradicting the claim
that `stop` in the paused state stops the campaign and produces a report. -/
theorem C9_counterexample :
    pause_campaign { is_running := true, campaign_metrics := some (initMetrics "c1") } =
      { is_running := false, campaign_metrics := some (initMetrics "c1") } ∧
    stop_campaign { is_running := false, campaign_metrics := some (initMetrics "c1") } =
      ({ is_running := false, campaign_metrics := some (initMetrics "c1") }, none) ∧
    (stop_campaign
      { is_running := false, campaign_metrics := some (initMetrics "c1") }).2 ≠
      some (generate_final_report (initMetrics "c1")) ∧
    (stop_campaign
      { is_running := false, campaign_metrics := some (initMetrics "c1") }).1.campaign_metrics
      ≠ none := by
  refine ⟨rfl, rfl, by simp [stop_campaign], by simp [stop_campaign]⟩

/-- Witness for C9: stopping a running campaign clears it and produces the
report; stopping an already-stopped orchestrator is a no-op. -/
theorem C9_witness :
    (stop_campaign { is_running := true, campaign_metrics := some (initMetrics "c1") }).1 =
      { is_running := false, campaign_metrics := none } ∧
    (stop_campaign { is_running := true, campaign_metrics := some (initMetrics "c1") }).2 =
      some (generate_final_report (initMetrics "c1")) ∧
    stop_campaign initGenState = (initGenState, none) :=
  ⟨((C9_stop_behaviour _).2 rfl).1,
   ((C9_stop_behaviour _).2 rfl).2 (initMetrics "c1") rfl,
   (C9_stop_behaviour initGenState).1 rfl⟩

end SalesLeadGen
